import Mathlib

/-
Shallow embedding of src/code/main.py (openapi-mcp-demo): an MCP adapter
exposing an HR/identity REST API.  Python dicts are modelled as ordered
association lists, JSON values as the inductive `JVal`, the HTTP layer as an
oracle `Net : Request → HttpOutcome` (2xx-with-JSON-body versus any raised
exception, which covers non-2xx statuses, timeouts, TLS and JSON-decode
failures — `response.raise_for_status()` / `response.json()` both raise into
the same `except Exception` handler).  Operations additionally return the
list of HTTP requests they issued, in order, so that frame claims ("this
request is never sent") are statable.  Python code that can raise an
exception to its caller is embedded in `Except String`, the error carrying
the Python exception type name.
-/

namespace Openapi

/-- JSON values, as produced by `response.json()` and built by the tools. -/
inductive JVal : Type where
  | null : JVal
  | bool : Bool → JVal
  | num : Int → JVal
  | str : String → JVal
  | arr : List JVal → JVal
  | obj : List (String × JVal) → JVal

/-- One outgoing HTTP request: `client.request(method, url, headers=…,
params=…, json=…)`.  `params`/`body` are `none` when the keyword argument is
absent and `some []` when an empty dict is passed. -/
structure Request : Type where
  method : String
  url : String
  headers : List (String × String)
  params : Option (List (String × JVal))
  body : Option (List (String × JVal))

/-- What the HTTP layer does with a request: return a parsed JSON body, or
raise an exception whose `str(e)` is the given string. -/
inductive HttpOutcome : Type where
  | ok : JVal → HttpOutcome
  | exn : String → HttpOutcome

/-- The network oracle a run is parameterised by. -/
abbrev Net : Type := Request → HttpOutcome

/-- `d[k]`-style lookup in an insertion-ordered dict. -/
def alistGet {α : Type} : List (String × α) → String → Option α
  | [], _ => none
  | (k, v) :: rest, key => if k = key then some v else alistGet rest key

/-- `d[k] = v` on a Python dict: replaces the value in place when the key
exists (keeping its position), appends otherwise. -/
def setKey : List (String × JVal) → String → JVal → List (String × JVal)
  | [], key, v => [(key, v)]
  | (k, w) :: rest, key, v =>
    if k = key then (key, v) :: rest else (k, w) :: setKey rest key v

/-- Python truthiness of a JSON value (`if x:`). -/
def pyTruthy : JVal → Bool
  | .null => false
  | .bool b => b
  | .num n => n != 0
  | .str s => s ≠ ""
  | .arr xs => !xs.isEmpty
  | .obj fs => !fs.isEmpty

/-- Python `x == 0` for a JSON value (`False == 0` holds in Python). -/
def pyEqZero : JVal → Bool
  | .num n => n == 0
  | .bool b => !b
  | _ => false

/-- Python `x != 0`; note `None != 0` is `True`, matching `d.get(k) != 0`
when the key is absent. -/
def pyNeZero (v : JVal) : Bool := !(pyEqZero v)

/-- Python `str(x)` for the scalar JSON values (the only ones the code ever
formats; list/dict reprs are abbreviated and unreachable in the endpoints'
control flow, whose formatted values are strings defaulted to `''`). -/
def pyStr : JVal → String
  | .null => "None"
  | .bool b => if b then "True" else "False"
  | .num n => toString n
  | .str s => s
  | .arr _ => "<list>"
  | .obj _ => "<dict>"

/-- View a JSON value as a dict, raising `AttributeError` otherwise (as
Python does for attribute access such as `.get` on a non-dict). -/
def asObj : JVal → Except String (List (String × JVal))
  | .obj fs => Except.ok fs
  | _ => Except.error "AttributeError"

/-- Python `v.get(k, d)`: `AttributeError` when `v` is not a dict. -/
def pyGetD (v : JVal) (k : String) (d : JVal) : Except String JVal :=
  match v with
  | .obj fs => Except.ok ((alistGet fs k).getD d)
  | _ => Except.error "AttributeError"

/-- Python `k in v` (key membership for dicts, substring for strings,
element membership for lists, `TypeError` otherwise). -/
def pyHasKey (v : JVal) (k : String) : Except String Bool :=
  match v with
  | .obj fs => Except.ok (alistGet fs k).isSome
  | .str s => Except.ok (decide ((s.splitOn k).length > 1))
  | .arr xs => Except.ok (xs.any fun x => match x with | .str s2 => s2 = k | _ => false)
  | _ => Except.error "TypeError"

/-- `USER_AGENT` constant of the module. -/
def USER_AGENT : String := "openapi-mcp/1.0"

/-- Headers installed on every client by `get_client` (the fixed user agent
and content type); `verify=False` and the 30-second timeout are transport
configuration with no influence on the values modelled here. -/
def baseHeaders : List (String × String) :=
  [("User-Agent", USER_AGENT), ("Content-Type", "application/json")]

/-- Headers of the outgoing request: the client's base headers, plus
`Authorization: <token>` verbatim when `token` is truthy (`if token:`), i.e.
present and non-empty. -/
def buildHeaders : Option String → List (String × String)
  | some t => if t = "" then baseHeaders else baseHeaders ++ [("Authorization", t)]
  | none => baseHeaders

/-- The request `make_api_request` hands to `client.request`. -/
def mkRequest (method url : String) (token : Option String)
    (params body : Option (List (String × JVal))) : Request :=
  ⟨method, url, buildHeaders token, params, body⟩

/-- The uniform failure envelope synthesised by `make_api_request`'s
`except` branch. -/
def errorEnvelope (m : String) : JVal :=
  JVal.obj [("code", JVal.num 500), ("action", JVal.str "alert"),
    ("message", JVal.str m), ("data", JVal.null), ("success", JVal.bool false)]

/-- `make_api_request`: one HTTP call; on any exception, the failure
envelope instead of a raise.  Also returns the (singleton) request log. -/
def make_api_request (net : Net) (method url : String) (token : Option String)
    (params body : Option (List (String × JVal))) : JVal × List Request :=
  let req := mkRequest method url token params body
  (match net req with
   | .ok j => j
   | .exn m => errorEnvelope m, [req])

/-- A key bound to an optionally supplied value: the `if x is not None:
data[k] = x` idiom (`none` contributes nothing to the payload). -/
def optField (k : String) : Option JVal → List (String × JVal)
  | some v => [(k, v)]
  | none => []

/-- `issue_token`: POSTs the two keys, then post-processes the result.  The
post-processing performs Python attribute accesses that can raise, so the
value is `Except`-typed. -/
def issue_token (net : Net) (access_key_id access_key_secret : String) :
    Except String JVal × List Request :=
  let r := make_api_request net "POST" "/api/open/v1/token" none none
    (some [("access_key_id", JVal.str access_key_id),
           ("access_key_secret", JVal.str access_key_secret)])
  let result := r.1
  let out : Except String JVal := do
    let failed ←
      if !pyTruthy result then pure true
      else pyHasKey result "error"
    if failed then
      let ev ← pyGetD result "error" (JVal.str "Failed to get token")
      pure (JVal.obj [("success", JVal.bool false), ("error", ev)])
    else
      let dataV ← pyGetD result "data" (JVal.obj [])
      let at_ ← pyGetD dataV "access_token" JVal.null
      let ei ← pyGetD dataV "expires_in" JVal.null
      pure (JVal.obj [("success", JVal.bool true),
        ("data", JVal.obj [("access_token", at_), ("expires_in", ei)])])
  (out, r.2)

/-- `department_list`: the optional id is truthiness-tested (`if
department_id:`), so `none` and the empty string both omit the key. -/
def department_list (net : Net) (token : String) (department_id : Option String) :
    JVal × List Request :=
  let params : List (String × JVal) :=
    match department_id with
    | some d => if d = "" then [] else [("id", JVal.str d)]
    | none => []
  make_api_request net "GET" "/api/open/v1/department/list" (some token) (some params) none

/-- `department_detail`. -/
def department_detail (net : Net) (token department_id : String) : JVal × List Request :=
  make_api_request net "GET" "/api/open/v1/department/detail" (some token)
    (some [("param", JVal.str department_id)]) none

/-- `department_create`. -/
def department_create (net : Net) (token name parent_id : String) (order : Option Int) :
    JVal × List Request :=
  let request_data := [("name", JVal.str name), ("parent_id", JVal.str parent_id)]
    ++ optField "order" (order.map JVal.num)
  make_api_request net "POST" "/api/open/v1/department/create" (some token) none
    (some request_data)

/-- `department_update`. -/
def department_update (net : Net) (token department_id : String)
    (name : Option String) (order : Option Int) : JVal × List Request :=
  let request_data := [("id", JVal.str department_id)]
    ++ optField "name" (name.map JVal.str)
    ++ optField "order" (order.map JVal.num)
  make_api_request net "POST" "/api/open/v1/department/update" (some token) none
    (some request_data)

/-- `department_delete`. -/
def department_delete (net : Net) (token department_id : String) : JVal × List Request :=
  make_api_request net "POST" "/api/open/v1/department/delete" (some token) none
    (some [("id", JVal.str department_id)])

/-- `role_list`: no params and no body keyword at all. -/
def role_list (net : Net) (token : String) : JVal × List Request :=
  make_api_request net "GET" "/api/open/v1/role/list" (some token) none none

/-- `role_get`. -/
def role_get (net : Net) (token role_id : String) : JVal × List Request :=
  make_api_request net "GET" "/api/open/v1/role/get" (some token)
    (some [("id", JVal.str role_id)]) none

/-- `role_create`. -/
def role_create (net : Net) (token name : String) (description : Option String) :
    JVal × List Request :=
  let request_data := [("name", JVal.str name)]
    ++ optField "description" (description.map JVal.str)
  make_api_request net "POST" "/api/open/v1/role/create" (some token) none (some request_data)

/-- `role_update`. -/
def role_update (net : Net) (token role_id : String)
    (name description : Option String) : JVal × List Request :=
  let request_data := [("id", JVal.str role_id)]
    ++ optField "name" (name.map JVal.str)
    ++ optField "description" (description.map JVal.str)
  make_api_request net "POST" "/api/open/v1/role/update" (some token) none (some request_data)

/-- `role_delete`. -/
def role_delete (net : Net) (token role_id : String) : JVal × List Request :=
  make_api_request net "POST" "/api/open/v1/role/delete" (some token) none
    (some [("id", JVal.str role_id)])

/-- `role_member_create`. -/
def role_member_create (net : Net) (token role_id : String) (user_ids : List String) :
    JVal × List Request :=
  make_api_request net "POST" "/api/open/v1/role/member/create" (some token) none
    (some [("role_id", JVal.str role_id), ("user_ids", JVal.arr (user_ids.map JVal.str))])

/-- `role_member_delete`. -/
def role_member_delete (net : Net) (token role_id : String) (user_ids : List String) :
    JVal × List Request :=
  make_api_request net "POST" "/api/open/v1/role/member/delete" (some token) none
    (some [("role_id", JVal.str role_id), ("user_ids", JVal.arr (user_ids.map JVal.str))])

/-- `user_list`: the boolean `recursive` flag is coerced to 1/0 when
explicitly supplied (`1 if recursive else 0`), omitted when `None`. -/
def user_list (net : Net) (token department_id : String) (recursive : Option Bool) :
    JVal × List Request :=
  let params := [("department_id", JVal.str department_id)]
    ++ optField "recursive" (recursive.map fun b => JVal.num (if b then 1 else 0))
  make_api_request net "GET" "/api/open/v1/user/list" (some token) (some params) none

/-- `user_get`. -/
def user_get (net : Net) (token user_id : String) : JVal × List Request :=
  make_api_request net "GET" "/api/open/v1/user/get" (some token)
    (some [("id", JVal.str user_id)]) none

/-- `user_create`: `gender` and `status` carry Python defaults of 1 and are
unconditionally placed in the payload; only email/mobile/password are
`is not None`-guarded. -/
def user_create (net : Net) (token username full_name department_id : String)
    (email mobile password : Option String) (gender status : Int) : JVal × List Request :=
  let request_data := [("username", JVal.str username), ("full_name", JVal.str full_name),
      ("department_id", JVal.str department_id), ("gender", JVal.num gender),
      ("status", JVal.num status)]
    ++ optField "email" (email.map JVal.str)
    ++ optField "mobile" (mobile.map JVal.str)
    ++ optField "password" (password.map JVal.str)
  make_api_request net "POST" "/api/open/v1/user/create" (some token) none (some request_data)

/-- `user_update`. -/
def user_update (net : Net) (token user_id : String)
    (full_name email mobile department_id : Option String)
    (role_ids : Option (List String)) (status : Option Int) : JVal × List Request :=
  let request_data := [("id", JVal.str user_id)]
    ++ optField "full_name" (full_name.map JVal.str)
    ++ optField "email" (email.map JVal.str)
    ++ optField "mobile" (mobile.map JVal.str)
    ++ optField "department_id" (department_id.map JVal.str)
    ++ optField "role_ids" (role_ids.map fun xs => JVal.arr (xs.map JVal.str))
    ++ optField "status" (status.map JVal.num)
  make_api_request net "POST" "/api/open/v1/user/update" (some token) none (some request_data)

/-- `user_set_status`: delegates to `user_update` with only `status` set. -/
def user_set_status (net : Net) (token user_id : String) (status : Int) :
    JVal × List Request :=
  user_update net token user_id none none none none none (some status)

/-- The fixed hint appended to a failed delete result's message. -/
def deleteHint : String := "。注意: 只能删除离职用户，可能需要等待一段时间才能删除。"

/-- The tail of `user_delete` after the optional offline pre-step: issue the
delete request, then — only when the result's `code` is not 0 — rebind its
`message` to `str(old message, default ``) ++ deleteHint`.  `log0` is the
log accumulated by the pre-step. -/
def user_delete_finish (net : Net) (token user_id : String) (log0 : List Request) :
    Except String JVal × List Request :=
  let r := make_api_request net "POST" "/api/open/v1/user/delete" (some token) none
    (some [("id", JVal.str user_id)])
  let result := r.1
  let annotated : Except String JVal := do
    let codeV ← pyGetD result "code" JVal.null
    if pyNeZero codeV then
      let msgV ← pyGetD result "message" (JVal.str "")
      let fs ← asObj result
      pure (JVal.obj (setKey fs "message" (JVal.str (pyStr msgV ++ deleteHint))))
    else
      pure result
  (annotated, log0 ++ r.2)

/-- The prefix of `user_delete`'s abort message. -/
def offlineFailPrefix : String := "设置用户为离职状态失败: "

/-- `user_delete`: with `set_offline_first`, first `user_update(status=3)`;
when that result's `code` differs from 0, return the four-key abort envelope
(`code` from the pre-step or 500 when absent, no `success` key) without
issuing the delete; otherwise fall through to the delete request. -/
def user_delete (net : Net) (token user_id : String) (set_offline_first : Bool) :
    Except String JVal × List Request :=
  if set_offline_first then
    let sr := user_update net token user_id none none none none none (some 3)
    let status_result := sr.1
    match pyGetD status_result "code" JVal.null with
    | Except.error e => (Except.error e, sr.2)
    | Except.ok codeV =>
      if pyNeZero codeV then
        let abort : Except String JVal := do
          let codeD ← pyGetD status_result "code" (JVal.num 500)
          let msgV ← pyGetD status_result "message" (JVal.str "")
          pure (JVal.obj [("code", codeD), ("action", JVal.str "alert"),
            ("message", JVal.str (offlineFailPrefix ++ pyStr msgV)),
            ("data", JVal.null)])
        (abort, sr.2)
      else
        user_delete_finish net token user_id sr.2
  else
    user_delete_finish net token user_id []

/-- `user_batch_get_id`. -/
def user_batch_get_id (net : Net) (token : String) (usernames : List String) :
    JVal × List Request :=
  make_api_request net "POST" "/api/open/v1/user/batch_get_id" (some token) none
    (some [("usernames", JVal.arr (usernames.map JVal.str))])

/-- A network on which every request raises with exception text `m`:
the "simulated network failure" scenario. -/
def failNet (m : String) : Net := fun _ => HttpOutcome.exn m

/-- A trivially succeeding backend (body irrelevant to payload claims). -/
def okNet : Net := fun _ => HttpOutcome.ok JVal.null

/-- A backend answering the user-delete endpoint with `del` and everything
else (in particular the offline-status update) with `upd`. -/
def twoStepNet (upd del : JVal) : Net := fun r =>
  if r.url = "/api/open/v1/user/delete" then HttpOutcome.ok del else HttpOutcome.ok upd

/-- The offline-status pre-step request issued by `user_delete`. -/
def offlineReq (token user_id : String) : Request :=
  mkRequest "POST" "/api/open/v1/user/update" (some token) none
    (some [("id", JVal.str user_id), ("status", JVal.num 3)])

/-- The delete request issued by `user_delete`. -/
def deleteReq (token user_id : String) : Request :=
  mkRequest "POST" "/api/open/v1/user/delete" (some token) none
    (some [("id", JVal.str user_id)])

/-- The key list of each request body in a log, in order. -/
def sentBodyKeys (log : List Request) : List (List String) :=
  log.map fun r => (r.body.getD []).map Prod.fst

/-- The key list of each request query in a log, in order. -/
def sentParamKeys (log : List Request) : List (List String) :=
  log.map fun r => (r.params.getD []).map Prod.fst

/-- The keys of an operation result that is a dict (empty otherwise). -/
def resultKeys : Except String JVal → List String
  | Except.ok (JVal.obj fs) => fs.map Prod.fst
  | _ => []

/-- Whether an operation result that is a dict carries the key `k`. -/
def resultHasKey (e : Except String JVal) (k : String) : Bool :=
  match e with
  | Except.ok (JVal.obj fs) => (alistGet fs k).isSome
  | _ => false

/-- C2: whenever the request raises any exception `e`, `make_api_request`
returns exactly the envelope with code 500, action alert, message `str(e)`,
null data and success false; on a 2xx response with a JSON body the parsed
body is returned unchanged. -/
theorem make_api_request_envelope_spec (net : Net) (method url : String)
    (token : Option String) (params body : Option (List (String × JVal))) :
    (∀ m, net (mkRequest method url token params body) = HttpOutcome.exn m →
      (make_api_request net method url token params body).1 = errorEnvelope m)
    ∧ (∀ j, net (mkRequest method url token params body) = HttpOutcome.ok j →
      (make_api_request net method url token params body).1 = j) := by
  constructor
  · intro m hm
    simp [make_api_request, hm]
  · intro j hj
    simp [make_api_request, hj]

/-- Witness for C2 on a concrete failing call and a concrete succeeding
call. -/
theorem make_api_request_envelope_spec_witness :
    (make_api_request (failNet "boom") "GET" "/api/open/v1/role/list" (some "t") none none).1
      = errorEnvelope "boom"
    ∧ (make_api_request okNet "GET" "/api/open/v1/role/list" (some "t") none none).1
      = JVal.null :=
  ⟨(make_api_request_envelope_spec (failNet "boom") "GET" "/api/open/v1/role/list"
      (some "t") none none).1 "boom" rfl,
   (make_api_request_envelope_spec okNet "GET" "/api/open/v1/role/list"
      (some "t") none none).2 JVal.null rfl⟩

/-- C6: in `user_list`, `recursive=True` serializes to the query key
`recursive` with value 1, `recursive=False` to 0, and `recursive=None`
omits the key entirely. -/
theorem user_list_recursive_serialization (net : Net) (token dep : String) :
    (user_list net token dep (some true)).2
      = [mkRequest "GET" "/api/open/v1/user/list" (some token)
          (some [("department_id", JVal.str dep), ("recursive", JVal.num 1)]) none]
    ∧ (user_list net token dep (some false)).2
      = [mkRequest "GET" "/api/open/v1/user/list" (some token)
          (some [("department_id", JVal.str dep), ("recursive", JVal.num 0)]) none]
    ∧ (user_list net token dep none).2
      = [mkRequest "GET" "/api/open/v1/user/list" (some token)
          (some [("department_id", JVal.str dep)]) none] :=
  ⟨rfl, rfl, rfl⟩

/-- C7: any non-empty token is forwarded verbatim as the `Authorization`
header (no scheme prefix); with no token supplied, no `Authorization`
header is set. -/
theorem authorization_header_verbatim (t : String) (h : t ≠ "")
    (method url : String) (params body : Option (List (String × JVal))) :
    alistGet (mkRequest method url (some t) params body).headers "Authorization" = some t
    ∧ alistGet (mkRequest method url none params body).headers "Authorization" = none := by
  refine ⟨?_, rfl⟩
  show alistGet (if t = "" then baseHeaders else baseHeaders ++ [("Authorization", t)])
    "Authorization" = some t
  rw [if_neg h]
  rfl

/-- Witness for C7 at a concrete token. -/
theorem authorization_header_verbatim_witness :
    alistGet (mkRequest "GET" "/api/open/v1/role/list" (some "tok-123") none none).headers
      "Authorization" = some "tok-123" :=
  (authorization_header_verbatim "tok-123" (by decide) "GET" "/api/open/v1/role/list"
    none none).1

/-- C8: `user_set_status` is extensionally the general `user_update` with
only the status field set, and its single request carries exactly
`id` and `status`. -/
theorem user_set_status_eq_user_update (net : Net) (token user_id : String) (status : Int) :
    user_set_status net token user_id status
      = user_update net token user_id none none none none none (some status)
    ∧ (user_set_status net token user_id status).2
      = [mkRequest "POST" "/api/open/v1/user/update" (some token) none
          (some [("id", JVal.str user_id), ("status", JVal.num status)])] :=
  ⟨rfl, rfl⟩

/-- C4 counterexample: `user_create` called with only its required
arguments still sends `gender` and `status` (their Python defaults, 1), so
the payload is not limited to the required keys. -/
theorem user_create_required_only_sends_defaults :
    (user_create okNet "t" "u" "f" "d" none none none 1 1).2
      = [mkRequest "POST" "/api/open/v1/user/create" (some "t") none
          (some [("username", JVal.str "u"), ("full_name", JVal.str "f"),
                 ("department_id", JVal.str "d"), ("gender", JVal.num 1),
                 ("status", JVal.num 1)])]
    ∧ "gender" ∉ (["username", "full_name", "department_id"] : List String) :=
  ⟨rfl, by decide⟩

/-- C4 amended: with only required parameters supplied, every operation's
outgoing payload carries exactly the required keys — except `user_create`,
whose defaulted `gender` and `status` are always present as well. -/
theorem required_only_payload_exact (net : Net) (token : String) :
    (∀ a s, sentBodyKeys (issue_token net a s).2 = [["access_key_id", "access_key_secret"]])
    ∧ sentParamKeys (department_list net token none).2 = [[]]
    ∧ (∀ d, sentParamKeys (department_detail net token d).2 = [["param"]])
    ∧ (∀ n p, sentBodyKeys (department_create net token n p none).2 = [["name", "parent_id"]])
    ∧ (∀ d, sentBodyKeys (department_update net token d none none).2 = [["id"]])
    ∧ (∀ d, sentBodyKeys (department_delete net token d).2 = [["id"]])
    ∧ (sentParamKeys (role_list net token).2 = [[]]
        ∧ sentBodyKeys (role_list net token).2 = [[]])
    ∧ (∀ r, sentParamKeys (role_get net token r).2 = [["id"]])
    ∧ (∀ n, sentBodyKeys (role_create net token n none).2 = [["name"]])
    ∧ (∀ r, sentBodyKeys (role_update net token r none none).2 = [["id"]])
    ∧ (∀ r, sentBodyKeys (role_delete net token r).2 = [["id"]])
    ∧ (∀ r us, sentBodyKeys (role_member_create net token r us).2 = [["role_id", "user_ids"]])
    ∧ (∀ r us, sentBodyKeys (role_member_delete net token r us).2 = [["role_id", "user_ids"]])
    ∧ (∀ d, sentParamKeys (user_list net token d none).2 = [["department_id"]])
    ∧ (∀ u, sentParamKeys (user_get net token u).2 = [["id"]])
    ∧ (∀ u st, sentBodyKeys (user_set_status net token u st).2 = [["id", "status"]])
    ∧ (∀ u, sentBodyKeys (user_update net token u none none none none none none).2 = [["id"]])
    ∧ (∀ us, sentBodyKeys (user_batch_get_id net token us).2 = [["usernames"]])
    ∧ (∀ u f d, sentBodyKeys (user_create net token u f d none none none 1 1).2
        = [["username", "full_name", "department_id", "gender", "status"]]) :=
  ⟨fun _ _ => rfl, rfl, fun _ => rfl, fun _ _ => rfl, fun _ => rfl, fun _ => rfl,
   ⟨rfl, rfl⟩, fun _ => rfl, fun _ => rfl, fun _ => rfl, fun _ => rfl, fun _ _ => rfl,
   fun _ _ => rfl, fun _ => rfl, fun _ => rfl, fun _ _ => rfl, fun _ => rfl,
   fun _ => rfl, fun _ _ _ => rfl⟩

/-- C5 counterexample: `department_list` truthiness-tests its optional id,
so an explicitly provided empty string is omitted from the query. -/
theorem department_list_empty_string_omitted :
    (department_list okNet "t" (some "")).2
      = [mkRequest "GET" "/api/open/v1/department/list" (some "t") (some []) none]
    ∧ sentParamKeys (department_list okNet "t" (some "")).2 = [[]] :=
  ⟨rfl, rfl⟩

/-- C5 amended: every `is not None`-guarded optional parameter, when
explicitly provided, lands in the payload with the provided value — falsy
values such as `order=0` included for all Int-valued options since the
order below is an arbitrary integer; `department_list`'s truthiness-guarded
id is included only when non-empty and dropped when empty. -/
theorem optional_provided_included (net : Net) (token : String) :
    (∀ n p (o : Int), (department_create net token n p (some o)).2
      = [mkRequest "POST" "/api/open/v1/department/create" (some token) none
          (some [("name", JVal.str n), ("parent_id", JVal.str p), ("order", JVal.num o)])])
    ∧ (∀ d n (o : Int), (department_update net token d (some n) (some o)).2
      = [mkRequest "POST" "/api/open/v1/department/update" (some token) none
          (some [("id", JVal.str d), ("name", JVal.str n), ("order", JVal.num o)])])
    ∧ (∀ n ds, (role_create net token n (some ds)).2
      = [mkRequest "POST" "/api/open/v1/role/create" (some token) none
          (some [("name", JVal.str n), ("description", JVal.str ds)])])
    ∧ (∀ r n ds, (role_update net token r (some n) (some ds)).2
      = [mkRequest "POST" "/api/open/v1/role/update" (some token) none
          (some [("id", JVal.str r), ("name", JVal.str n), ("description", JVal.str ds)])])
    ∧ (∀ d b, (user_list net token d (some b)).2
      = [mkRequest "GET" "/api/open/v1/user/list" (some token)
          (some [("department_id", JVal.str d),
                 ("recursive", JVal.num (if b then 1 else 0))]) none])
    ∧ (∀ u f d e mo pw (g st : Int), (user_create net token u f d (some e) (some mo) (some pw) g st).2
      = [mkRequest "POST" "/api/open/v1/user/create" (some token) none
          (some [("username", JVal.str u), ("full_name", JVal.str f),
                 ("department_id", JVal.str d), ("gender", JVal.num g),
                 ("status", JVal.num st), ("email", JVal.str e),
                 ("mobile", JVal.str mo), ("password", JVal.str pw)])])
    ∧ (∀ u fn e mo d rids (st : Int),
        (user_update net token u (some fn) (some e) (some mo) (some d) (some rids) (some st)).2
      = [mkRequest "POST" "/api/open/v1/user/update" (some token) none
          (some [("id", JVal.str u), ("full_name", JVal.str fn), ("email", JVal.str e),
                 ("mobile", JVal.str mo), ("department_id", JVal.str d),
                 ("role_ids", JVal.arr (rids.map JVal.str)), ("status", JVal.num st)])])
    ∧ (∀ d, d ≠ "" → (department_list net token (some d)).2
      = [mkRequest "GET" "/api/open/v1/department/list" (some token)
          (some [("id", JVal.str d)]) none])
    ∧ (department_list net token (some "")).2
      = [mkRequest "GET" "/api/open/v1/department/list" (some token) (some []) none] := by
  refine ⟨fun _ _ _ => rfl, fun _ _ _ => rfl, fun _ _ => rfl, fun _ _ _ => rfl,
    fun _ _ => rfl, fun _ _ _ _ _ _ _ _ => rfl, fun _ _ _ _ _ _ _ => rfl, ?_, rfl⟩
  intro d hd
  simp only [department_list]
  rw [if_neg hd]
  rfl

/-- Witness for C5 at concrete inputs: a non-empty id is included, and
`order=0` is included despite being falsy. -/
theorem optional_provided_included_witness :
    (department_list okNet "t" (some "x")).2
      = [mkRequest "GET" "/api/open/v1/department/list" (some "t")
          (some [("id", JVal.str "x")]) none]
    ∧ (department_update okNet "t" "d" (some "n") (some 0)).2
      = [mkRequest "POST" "/api/open/v1/department/update" (some "t") none
          (some [("id", JVal.str "d"), ("name", JVal.str "n"), ("order", JVal.num 0)])] :=
  ⟨(optional_provided_included okNet "t").2.2.2.2.2.2.2.1 "x" (by decide),
   (optional_provided_included okNet "t").2.1 "d" "n" 0⟩

/-- C3 counterexample: when the offline pre-step returns code 0 and the
delete call also returns code 0, the delete result's message is returned
untouched — it is not suffixed with the fixed deletion hint, contrary to
the claim's unconditional suffixing. -/
theorem user_delete_hint_missing_on_successful_delete :
    (user_delete (twoStepNet (JVal.obj [("code", JVal.num 0), ("message", JVal.str "upd")])
        (JVal.obj [("code", JVal.num 0), ("message", JVal.str "ok")])) "t" "u" true).1
      = Except.ok (JVal.obj [("code", JVal.num 0), ("message", JVal.str "ok")])
    ∧ "ok" ≠ "ok" ++ deleteHint :=
  ⟨rfl, by decide⟩

/-- C3 amended: with the default pre-step, a code-0 offline update is
followed by the delete request, whose result message is suffixed with the
deletion hint only when the delete's own code is non-zero (it is returned
unchanged on code 0); a non-zero update code aborts before any delete, the
returned envelope's message embedding the update failure text. -/
theorem user_delete_sequencing_spec (token uid um dm : String) (uc dc : Int) :
    (uc = 0 → dc ≠ 0 →
      user_delete (twoStepNet (JVal.obj [("code", JVal.num uc), ("message", JVal.str um)])
          (JVal.obj [("code", JVal.num dc), ("message", JVal.str dm)])) token uid true
        = (Except.ok (JVal.obj [("code", JVal.num dc),
             ("message", JVal.str (dm ++ deleteHint))]),
           [offlineReq token uid, deleteReq token uid]))
    ∧ (uc = 0 → dc = 0 →
      user_delete (twoStepNet (JVal.obj [("code", JVal.num uc), ("message", JVal.str um)])
          (JVal.obj [("code", JVal.num dc), ("message", JVal.str dm)])) token uid true
        = (Except.ok (JVal.obj [("code", JVal.num dc), ("message", JVal.str dm)]),
           [offlineReq token uid, deleteReq token uid]))
    ∧ (uc ≠ 0 →
      user_delete (twoStepNet (JVal.obj [("code", JVal.num uc), ("message", JVal.str um)])
          (JVal.obj [("code", JVal.num dc), ("message", JVal.str dm)])) token uid true
        = (Except.ok (JVal.obj [("code", JVal.num uc), ("action", JVal.str "alert"),
             ("message", JVal.str (offlineFailPrefix ++ um)), ("data", JVal.null)]),
           [offlineReq token uid])) := by
  refine ⟨?_, ?_, ?_⟩
  · intro h1 h2
    subst h1
    simp [user_delete, user_delete_finish, user_update, make_api_request, mkRequest, twoStepNet,
      optField, pyGetD, alistGet, pyNeZero, pyEqZero, asObj, setKey, pyStr,
      offlineReq, deleteReq, h2, buildHeaders, baseHeaders, bind, Except.bind, pure,
      Except.pure, beq_iff_eq]
  · intro h1 h2
    subst h1
    subst h2
    rfl
  · intro h1
    simp [user_delete, user_delete_finish, user_update, make_api_request, mkRequest, twoStepNet,
      optField, pyGetD, alistGet, pyNeZero, pyEqZero, asObj, setKey, pyStr,
      offlineReq, deleteReq, h1, buildHeaders, baseHeaders, bind, Except.bind, pure,
      Except.pure, beq_iff_eq]

/-- Witness for C3 on concrete codes: update code 0 with failing delete
(code 7) annotates, update code 5 aborts with the embedded message. -/
theorem user_delete_sequencing_spec_witness :
    user_delete (twoStepNet (JVal.obj [("code", JVal.num 0), ("message", JVal.str "upd")])
        (JVal.obj [("code", JVal.num 7), ("message", JVal.str "denied")])) "t" "u" true
      = (Except.ok (JVal.obj [("code", JVal.num 7),
           ("message", JVal.str ("denied" ++ deleteHint))]),
         [offlineReq "t" "u", deleteReq "t" "u"])
    ∧ user_delete (twoStepNet (JVal.obj [("code", JVal.num 5), ("message", JVal.str "nope")])
        (JVal.obj [("code", JVal.num 0), ("message", JVal.str "x")])) "t" "u" true
      = (Except.ok (JVal.obj [("code", JVal.num 5), ("action", JVal.str "alert"),
           ("message", JVal.str (offlineFailPrefix ++ "nope")), ("data", JVal.null)]),
         [offlineReq "t" "u"]) :=
  ⟨(user_delete_sequencing_spec "t" "u" "upd" "denied" 0 7).1 rfl (by decide),
   (user_delete_sequencing_spec "t" "u" "nope" "x" 5 0).2.2 (by decide)⟩

/-- C9: the abort envelope of `user_delete` carries exactly the keys
`code`, `action`, `message`, `data` — `action` is alert, `data` null, and
`code` is the pre-step's code, or 500 when the pre-step result has no
`code` key — and carries no `success` key. -/
theorem user_delete_abort_envelope_shape (token uid : String) (c : Int) (msg : String)
    (hc : c ≠ 0) :
    user_delete (twoStepNet (JVal.obj [("code", JVal.num c), ("message", JVal.str msg)])
        JVal.null) token uid true
      = (Except.ok (JVal.obj [("code", JVal.num c), ("action", JVal.str "alert"),
           ("message", JVal.str (offlineFailPrefix ++ msg)), ("data", JVal.null)]),
         [offlineReq token uid])
    ∧ resultKeys (user_delete (twoStepNet
        (JVal.obj [("code", JVal.num c), ("message", JVal.str msg)]) JVal.null) token uid true).1
      = ["code", "action", "message", "data"]
    ∧ resultHasKey (user_delete (twoStepNet
        (JVal.obj [("code", JVal.num c), ("message", JVal.str msg)]) JVal.null) token uid true).1
        "success" = false
    ∧ (user_delete (twoStepNet (JVal.obj [("message", JVal.str msg)]) JVal.null) token uid true).1
      = Except.ok (JVal.obj [("code", JVal.num 500), ("action", JVal.str "alert"),
           ("message", JVal.str (offlineFailPrefix ++ msg)), ("data", JVal.null)]) := by
  have h1 : user_delete (twoStepNet
      (JVal.obj [("code", JVal.num c), ("message", JVal.str msg)]) JVal.null) token uid true
      = (Except.ok (JVal.obj [("code", JVal.num c), ("action", JVal.str "alert"),
           ("message", JVal.str (offlineFailPrefix ++ msg)), ("data", JVal.null)]),
         [offlineReq token uid]) := by
    simp [user_delete, user_update, make_api_request, mkRequest, twoStepNet,
      optField, pyGetD, alistGet, pyNeZero, pyEqZero, pyStr,
      offlineReq, hc, buildHeaders, baseHeaders, bind, Except.bind, pure,
      Except.pure, beq_iff_eq]
  refine ⟨h1, ?_, ?_, rfl⟩
  · rw [h1]
    rfl
  · rw [h1]
    rfl

/-- Witness for C9 at pre-step code 7. -/
theorem user_delete_abort_envelope_shape_witness :
    user_delete (twoStepNet (JVal.obj [("code", JVal.num 7), ("message", JVal.str "no")])
        JVal.null) "t" "u" true
      = (Except.ok (JVal.obj [("code", JVal.num 7), ("action", JVal.str "alert"),
           ("message", JVal.str (offlineFailPrefix ++ "no")), ("data", JVal.null)]),
         [offlineReq "t" "u"]) :=
  (user_delete_abort_envelope_shape "t" "u" 7 "no" (by decide)).1

/-- C10: with `set_offline_first=False` no offline pre-step is issued —
for any backend the log is exactly the one delete request with body
`id: user_id` — and the failure-hint annotation still applies to the
delete result (appended on non-zero code, nothing on code 0). -/
theorem user_delete_skip_offline_single_request (net : Net) (token uid : String) :
    (user_delete net token uid false).2 = [deleteReq token uid]
    ∧ deleteReq token uid
      = mkRequest "POST" "/api/open/v1/user/delete" (some token) none
          (some [("id", JVal.str uid)])
    ∧ (∀ (dc : Int) (dm : String), dc ≠ 0 →
        user_delete (twoStepNet JVal.null
            (JVal.obj [("code", JVal.num dc), ("message", JVal.str dm)])) token uid false
          = (Except.ok (JVal.obj [("code", JVal.num dc),
               ("message", JVal.str (dm ++ deleteHint))]), [deleteReq token uid]))
    ∧ (∀ (dm : String),
        (user_delete (twoStepNet JVal.null
            (JVal.obj [("code", JVal.num 0), ("message", JVal.str dm)])) token uid false).1
          = Except.ok (JVal.obj [("code", JVal.num 0), ("message", JVal.str dm)])) := by
  refine ⟨rfl, rfl, ?_, fun _ => rfl⟩
  intro dc dm hdc
  simp [user_delete, user_delete_finish, make_api_request, mkRequest, twoStepNet,
    pyGetD, alistGet, pyNeZero, pyEqZero, asObj, setKey, pyStr,
    deleteReq, hdc, buildHeaders, baseHeaders, bind, Except.bind, pure,
    Except.pure, beq_iff_eq]

/-- Witness for C10 with a failing delete (code 9). -/
theorem user_delete_skip_offline_single_request_witness :
    user_delete (twoStepNet JVal.null
        (JVal.obj [("code", JVal.num 9), ("message", JVal.str "err")])) "t" "u" false
      = (Except.ok (JVal.obj [("code", JVal.num 9),
           ("message", JVal.str ("err" ++ deleteHint))]), [deleteReq "t" "u"]) :=
  (user_delete_skip_offline_single_request
    (twoStepNet JVal.null (JVal.obj [("code", JVal.num 9), ("message", JVal.str "err")]))
    "t" "u").2.2.1 9 "err" (by decide)

/-- C1 counterexample: on network failure `issue_token` does not return an
envelope at all — `result.get("data", \x7b\x7d)` yields the envelope's
`None` data and the subsequent `data.get("access_token")` raises
`AttributeError` to the caller. -/
theorem issue_token_raises_on_network_failure :
    (issue_token (failNet "boom") "ak" "sk").1 = Except.error "AttributeError" :=
  rfl

/-- C1 amended: on network failure every token-taking single-request
operation returns the full 500/alert/success-false envelope with the
exception text as message and no Python exception; `user_delete` without
the pre-step returns that envelope with the hint appended, but with the
default pre-step it returns the four-key abort envelope without a
`success` key; `issue_token` instead raises `AttributeError`.  All the
returned messages are non-empty when the exception text is. -/
theorem network_failure_uniform_envelope (m : String) (hm : m ≠ "") :
    (∀ t d, (department_list (failNet m) t d).1 = errorEnvelope m)
    ∧ (∀ t d, (department_detail (failNet m) t d).1 = errorEnvelope m)
    ∧ (∀ t n p o, (department_create (failNet m) t n p o).1 = errorEnvelope m)
    ∧ (∀ t d n o, (department_update (failNet m) t d n o).1 = errorEnvelope m)
    ∧ (∀ t d, (department_delete (failNet m) t d).1 = errorEnvelope m)
    ∧ (∀ t, (role_list (failNet m) t).1 = errorEnvelope m)
    ∧ (∀ t r, (role_get (failNet m) t r).1 = errorEnvelope m)
    ∧ (∀ t n ds, (role_create (failNet m) t n ds).1 = errorEnvelope m)
    ∧ (∀ t r n ds, (role_update (failNet m) t r n ds).1 = errorEnvelope m)
    ∧ (∀ t r, (role_delete (failNet m) t r).1 = errorEnvelope m)
    ∧ (∀ t r us, (role_member_create (failNet m) t r us).1 = errorEnvelope m)
    ∧ (∀ t r us, (role_member_delete (failNet m) t r us).1 = errorEnvelope m)
    ∧ (∀ t d rc, (user_list (failNet m) t d rc).1 = errorEnvelope m)
    ∧ (∀ t u, (user_get (failNet m) t u).1 = errorEnvelope m)
    ∧ (∀ t u f d e mo pw g st, (user_create (failNet m) t u f d e mo pw g st).1
        = errorEnvelope m)
    ∧ (∀ t u fn e mo d rids st, (user_update (failNet m) t u fn e mo d rids st).1
        = errorEnvelope m)
    ∧ (∀ t u st, (user_set_status (failNet m) t u st).1 = errorEnvelope m)
    ∧ (∀ t us, (user_batch_get_id (failNet m) t us).1 = errorEnvelope m)
    ∧ (∀ t u, user_delete (failNet m) t u false
        = (Except.ok (JVal.obj [("code", JVal.num 500), ("action", JVal.str "alert"),
            ("message", JVal.str (m ++ deleteHint)), ("data", JVal.null),
            ("success", JVal.bool false)]), [deleteReq t u]))
    ∧ (∀ t u, user_delete (failNet m) t u true
        = (Except.ok (JVal.obj [("code", JVal.num 500), ("action", JVal.str "alert"),
            ("message", JVal.str (offlineFailPrefix ++ m)), ("data", JVal.null)]),
           [offlineReq t u]))
    ∧ (∀ a s, (issue_token (failNet m) a s).1 = Except.error "AttributeError")
    ∧ m ≠ ""
    ∧ m ++ deleteHint ≠ ""
    ∧ offlineFailPrefix ++ m ≠ "" := by
  refine ⟨fun _ _ => rfl, fun _ _ => rfl, fun _ _ _ _ => rfl, fun _ _ _ _ => rfl,
    fun _ _ => rfl, fun _ => rfl, fun _ _ => rfl, fun _ _ _ => rfl, fun _ _ _ _ => rfl,
    fun _ _ => rfl, fun _ _ _ => rfl, fun _ _ _ => rfl, fun _ _ _ => rfl, fun _ _ => rfl,
    fun _ _ _ _ _ _ _ _ _ => rfl, fun _ _ _ _ _ _ _ _ => rfl, fun _ _ _ => rfl,
    fun _ _ => rfl, fun _ _ => rfl, fun _ _ => rfl, fun _ _ => rfl, hm, ?_, ?_⟩
  · intro h
    have h2 := congrArg String.length h
    simp [String.length_append] at h2
    exact absurd h2.2 (by decide)
  · intro h
    have h2 := congrArg String.length h
    simp [String.length_append] at h2
    exact absurd h2.1 (by decide)

/-- Witness for C1 at exception text `boom`. -/
theorem network_failure_uniform_envelope_witness :
    (department_list (failNet "boom") "t" none).1 = errorEnvelope "boom" :=
  (network_failure_uniform_envelope "boom" (by decide)).1 "t" none

end Openapi
